import Mathlib

/-!
# Verification of the booba plugin ABI (`tools.hpp`)

A shallow embedding of the data model and host-side operations of the
`booba` plugin ABI.  The header declares the event model (`EventType`,
the payload structures, `Event` with its tagged union field `Oleg`), the
abstract pixel surface `Image`, the abstract `Tool` capability and the
host-provided widget/canvas operations (`createButton`, `createLabel`,
`createSlider`, `createCanvas`, `putPixel`, `cleanCanvas`, ...).

The header contains only declarations: the host-side implementations of
the widget factories, the canvas operations, the event dispatch loop and
the `Image` implementations live outside this repository.  Where a
property depends on such host behaviour, the corresponding definition is
modelled from the specification's words and its doc comment says so.

Machine integers are embedded as `Nat` (for `size_t`, `uint32_t`,
`uint64_t`) and `Int` (for `int64_t`); 32-bit color storage reduces
modulo `2 ^ 32`.  Pointers are embedded as `Option`.
-/

namespace Booba

/-- Event tags of `enum class EventType` (tools.hpp, lines 25-38). -/
inductive EventType
  | NoEvent
  | MouseMoved
  | MousePressed
  | MouseReleased
  | ButtonClicked
  | SliderMoved
  | CanvasMPressed
  | CanvasMReleased
  | CanvasMMoved
deriving DecidableEq, Fintype, Repr

/-- The explicit discriminant value of each tag, as written in the source:
`NoEvent = 0, ..., CanvasMMoved = 8`. -/
def EventType.val : EventType → Nat
  | .NoEvent => 0
  | .MouseMoved => 1
  | .MousePressed => 2
  | .MouseReleased => 3
  | .ButtonClicked => 4
  | .SliderMoved => 5
  | .CanvasMPressed => 6
  | .CanvasMReleased => 7
  | .CanvasMMoved => 8

/-- `enum class MouseButton` (tools.hpp, lines 40-44). -/
inductive MouseButton
  | Left
  | Right
deriving DecidableEq, Repr

/-- `struct MotionEventData` (tools.hpp, lines 46-53): absolute position
plus signed delta relative to the previous mouse position. -/
structure MotionEventData where
  x : Nat
  y : Nat
  rel_x : Int
  rel_y : Int
deriving DecidableEq, Repr

/-- `struct MouseButtonEventData` (tools.hpp, lines 55-63). -/
structure MouseButtonEventData where
  x : Nat
  y : Nat
  button : MouseButton
  shift : Bool
  alt : Bool
  ctrl : Bool
deriving DecidableEq, Repr

/-- `struct ButtonClickedEventData` (tools.hpp, lines 65-71). -/
structure ButtonClickedEventData where
  id : Nat
deriving DecidableEq, Repr

/-- `struct SliderMovedEventData` (tools.hpp, lines 73-80): id of the
slider and its new value. -/
structure SliderMovedEventData where
  id : Nat
  value : Int
deriving DecidableEq, Repr

/-- `struct CanvasEventData` (tools.hpp, lines 83-90). -/
structure CanvasEventData where
  id : Nat
  x : Nat
  y : Nat
deriving DecidableEq, Repr

/-- The anonymous union inside `Event` (tools.hpp, lines 99-106), field
name `Oleg`.  A C++ union physically stores at most one member at a
time; the embedding records which member is stored.  `nodata` stands for
a union none of whose members has been written (as delivered with the
`NoEvent` tag). -/
inductive EventPayload
  | motion (d : MotionEventData)
  | mbedata (d : MouseButtonEventData)
  | bcedata (d : ButtonClickedEventData)
  | smedata (d : SliderMovedEventData)
  | cedata (d : CanvasEventData)
  | nodata
deriving DecidableEq, Repr

/-- `class Event` (tools.hpp, lines 95-107): a tag and the union. -/
structure Event where
  type : EventType
  Oleg : EventPayload
deriving DecidableEq, Repr

/-- Names of the five union members, used to say which member a tag
selects. -/
inductive VariantName
  | motion
  | mbedata
  | bcedata
  | smedata
  | cedata
deriving DecidableEq, Fintype, Repr

/-- Which union member a tag selects as meaningful, per the per-tag
comments in the source (`MouseMoved` - `MotionEventData`,
`MousePressed`/`MouseReleased` - `MouseButtonEventData`, `ButtonClicked`
- `ButtonClickedEventData`, `SliderMoved` - `SliderMovedEventData`, the
three canvas tags - `CanvasEventData`; `NoEvent` selects none). -/
def variantOfTag : EventType → Option VariantName
  | .NoEvent => none
  | .MouseMoved => some .motion
  | .MousePressed => some .mbedata
  | .MouseReleased => some .mbedata
  | .ButtonClicked => some .bcedata
  | .SliderMoved => some .smedata
  | .CanvasMPressed => some .cedata
  | .CanvasMReleased => some .cedata
  | .CanvasMMoved => some .cedata

/-- A meaningful read of `Oleg.motion`: defined only when the tag selects
the `motion` member and that member is the one stored; any other read of
this member is undefined in C++, embedded as `none`. -/
def Event.readMotion : Event → Option MotionEventData
  | ⟨.MouseMoved, .motion d⟩ => some d
  | _ => none

/-- A meaningful read of `Oleg.mbedata` (tags `MousePressed` and
`MouseReleased`). -/
def Event.readMbedata : Event → Option MouseButtonEventData
  | ⟨.MousePressed, .mbedata d⟩ => some d
  | ⟨.MouseReleased, .mbedata d⟩ => some d
  | _ => none

/-- A meaningful read of `Oleg.bcedata` (tag `ButtonClicked`). -/
def Event.readBcedata : Event → Option ButtonClickedEventData
  | ⟨.ButtonClicked, .bcedata d⟩ => some d
  | _ => none

/-- A meaningful read of `Oleg.smedata` (tag `SliderMoved`). -/
def Event.readSmedata : Event → Option SliderMovedEventData
  | ⟨.SliderMoved, .smedata d⟩ => some d
  | _ => none

/-- A meaningful read of `Oleg.cedata` (the three canvas tags). -/
def Event.readCedata : Event → Option CanvasEventData
  | ⟨.CanvasMPressed, .cedata d⟩ => some d
  | ⟨.CanvasMReleased, .cedata d⟩ => some d
  | ⟨.CanvasMMoved, .cedata d⟩ => some d
  | _ => none

/-- Factory for a `MouseMoved` event: tag plus matching payload. -/
def mkMouseMoved (d : MotionEventData) : Event := ⟨.MouseMoved, .motion d⟩

/-- Factory for a `MousePressed` event. -/
def mkMousePressed (d : MouseButtonEventData) : Event := ⟨.MousePressed, .mbedata d⟩

/-- Factory for a `MouseReleased` event. -/
def mkMouseReleased (d : MouseButtonEventData) : Event := ⟨.MouseReleased, .mbedata d⟩

/-- Factory for a `ButtonClicked` event. -/
def mkButtonClicked (d : ButtonClickedEventData) : Event := ⟨.ButtonClicked, .bcedata d⟩

/-- Factory for a `SliderMoved` event. -/
def mkSliderMoved (d : SliderMovedEventData) : Event := ⟨.SliderMoved, .smedata d⟩

/-- Factory for a `CanvasMPressed` event. -/
def mkCanvasMPressed (d : CanvasEventData) : Event := ⟨.CanvasMPressed, .cedata d⟩

/-- Factory for a `CanvasMReleased` event. -/
def mkCanvasMReleased (d : CanvasEventData) : Event := ⟨.CanvasMReleased, .cedata d⟩

/-- Factory for a `CanvasMMoved` event. -/
def mkCanvasMMoved (d : CanvasEventData) : Event := ⟨.CanvasMMoved, .cedata d⟩

/-- Factory for the `NoEvent` stub event: no union member is written. -/
def mkNoEvent : Event := ⟨.NoEvent, .nodata⟩

/-- Modelled from the spec: `class Image` (tools.hpp, lines 110-147) is a
pure-virtual interface whose implementations are host-side and absent
from the repository.  The spec describes it as a minimal read/write
interface over rectangular pixel data with 32-bit colors, so a surface
is modelled as a width, a height and a pixel grid. -/
structure Image where
  width : Nat
  height : Nat
  pix : Nat → Nat → Nat


/-- `Image::getH` — height of the image. -/
def Image.getH (i : Image) : Nat := i.height

/-- `Image::getW` — width of the image. -/
def Image.getW (i : Image) : Nat := i.width

/-- `Image::getPixel(x, y)` — color of the pixel at `(x, y)`.
Precondition in the source comments: `x` less than width, `y` less than
height. -/
def Image.getPixel (i : Image) (x y : Nat) : Nat := i.pix x y

/-- `Image::setPixel(x, y, color)` — sets the pixel at `(x, y)`.  The
color parameter is a `uint32_t`, so storage reduces modulo `2 ^ 32`. -/
def Image.setPixel (i : Image) (x y : Nat) (color : Nat) : Image :=
  ⟨i.width, i.height, fun a b => if a = x ∧ b = y then color % 2 ^ 32 else i.pix a b⟩

/-- C++ member access levels relevant to `class Image`. -/
inductive Access
  | publicAccess
  | protectedAccess
deriving DecidableEq, Fintype, Repr

/-- The members of `class Image` as declared in the source. -/
inductive ImageMember
  | getH
  | getW
  | getPixel
  | setPixel
  | destructor
deriving DecidableEq, Fintype, Repr

/-- Access level of each member of `class Image`, read off the source:
`getH`, `getW`, `getPixel`, `setPixel` sit in the `public:` section
(lines 112-143); the destructor `~Image()` sits in the `protected:`
section (lines 145-146). -/
def imageMemberAccess : ImageMember → Access
  | .getH => .publicAccess
  | .getW => .publicAccess
  | .getPixel => .publicAccess
  | .setPixel => .publicAccess
  | .destructor => .protectedAccess

/-- The kinds of widgets the four creation operations build, each with
its geometry and operation-specific parameters (tools.hpp, lines
208-245). -/
inductive Widget
  | button (x y w h : Nat) (text : String)
  | label (x y w h : Nat) (text : String)
  | slider (x y w h : Nat) (minValue maxValue startValue : Int)
  | canvas (x y w h : Nat)
deriving DecidableEq, Repr

/-- Modelled from the spec: the GUI library implementing the widget
factories is host-side and absent from the repository.  The spec says a
successful creation returns a nonzero identifier unique among
currently-live widgets and failure returns 0 with no widget created, so
the host is modelled as a list of live `(identifier, widget)` pairs
together with the next fresh identifier. -/
structure GuiState where
  nextId : Nat
  widgets : List (Nat × Widget)
deriving DecidableEq, Repr

/-- The identifiers of the currently-live widgets. -/
def GuiState.liveIds (s : GuiState) : List Nat := s.widgets.map Prod.fst

/-- The GUI state before any widget has been created: no live widgets,
first fresh identifier 1 (0 is the failure sentinel). -/
def GuiState.start : GuiState := ⟨1, []⟩

/-- Modelled from the spec: the common behaviour of the four widget
factories.  `ok` is the host's success/failure decision (resource
limits are host policy, outside the ABI): on success the widget is
created under a fresh identifier, on failure the result is the sentinel
0 and the state is unchanged. -/
def createWidget (ok : Bool) (w : Widget) (s : GuiState) : Nat × GuiState :=
  if ok then (s.nextId, ⟨s.nextId + 1, (s.nextId, w) :: s.widgets⟩) else (0, s)

/-- Modelled from the spec: `createButton` (tools.hpp, line 208). -/
def createButton (ok : Bool) (x y w h : Nat) (text : String) (s : GuiState) :
    Nat × GuiState :=
  createWidget ok (.button x y w h text) s

/-- Modelled from the spec: `createLabel` (tools.hpp, line 220). -/
def createLabel (ok : Bool) (x y w h : Nat) (text : String) (s : GuiState) :
    Nat × GuiState :=
  createWidget ok (.label x y w h text) s

/-- Modelled from the spec: `createSlider` (tools.hpp, line 234). -/
def createSlider (ok : Bool) (x y w h : Nat) (minValue maxValue startValue : Int)
    (s : GuiState) : Nat × GuiState :=
  createWidget ok (.slider x y w h minValue maxValue startValue) s

/-- Modelled from the spec: `createCanvas` (tools.hpp, line 245). -/
def createCanvas (ok : Bool) (x y w h : Nat) (s : GuiState) : Nat × GuiState :=
  createWidget ok (.canvas x y w h) s

/-- Invariant of the GUI state: live identifiers are nonzero and below
the next fresh identifier (hence fresh identifiers never collide with
live ones). -/
def GuiState.WellFormed (s : GuiState) : Prop :=
  0 < s.nextId ∧ ∀ id ∈ s.liveIds, 0 < id ∧ id < s.nextId

/-- Modelled from the spec: the lifecycle states of a registered `Tool`
instance (spec section 4.2).  The transient *WidgetBuilding* state is
entered and left within the single synchronous `buildSetupWidget` call,
which the step function below models as one atomic `build` action taking
*Registered* to *Active*. -/
inductive ToolState
  | Unregistered
  | Registered
  | Active
  | Destroyed
deriving DecidableEq, Fintype, Repr

/-- The host-driven actions on one `Tool` instance: handing it to the
host (`addTool`/`addFilter`), the synchronous `buildSetupWidget` call,
an `apply` call, and host-side deletion. -/
inductive HostAction
  | register
  | build
  | applyEvent
  | destroy
deriving DecidableEq, Fintype, Repr

/-- Modelled from the spec: the host-driven transitions of the `Tool`
lifecycle state machine (spec section 4.2); `none` means the host never
performs that action in that state. -/
def toolStep : ToolState → HostAction → Option ToolState
  | .Unregistered, .register => some .Registered
  | .Registered, .build => some .Active
  | .Active, .applyEvent => some .Active
  | .Active, .destroy => some .Destroyed
  | _, _ => none

/-- Runs a sequence of host actions from a state; `none` when some
action is not permitted by the state machine, so `some` characterises
the reachable host-driven executions. -/
def runTool : ToolState → List HostAction → Option ToolState
  | s, [] => some s
  | s, a :: tr =>
    match toolStep s a with
    | some t => runTool t tr
    | none => none

/-- How many times a trace performs the widget-build step. -/
def countBuild : List HostAction → Nat
  | [] => 0
  | a :: tr => (if a = HostAction.build then 1 else 0) + countBuild tr

/-- `true` when no `applyEvent` occurs before the first `build`, and the
suffix after the first `build` performs no further `build`: together,
every `apply` call is preceded by the (unique) widget-build step. -/
def buildOncePreApply : List HostAction → Bool
  | [] => true
  | HostAction.applyEvent :: _ => false
  | HostAction.build :: tr => countBuild tr = 0
  | _ :: tr => buildOncePreApply tr

/-- Modelled from the spec: one invocation of `Tool::apply` as the host
constructs it.  Both C++ pointer arguments are embedded as `Option`; the
source comments (tools.hpp, lines 171-172) say the image "Can be
nullptr" and the event is "Not nullptr". -/
structure ApplyCall where
  image : Option Image
  event : Option Event
 
/-- Modelled from the spec: the calls the host actually makes — the
event pointer is never null.  No constraint is put on the image
pointer. -/
def ApplyCall.valid (c : ApplyCall) : Bool := c.event.isSome

/-- Modelled from the spec: a canvas widget's drawable pixel content
(spec glossary: "a host-managed drawable widget surface, addressed by
opaque identifier"). -/
structure Canvas where
  width : Nat
  height : Nat
  pix : Nat → Nat → Nat

/-- Modelled from the spec: the host-side store of canvas widgets,
addressed by their opaque identifiers; `none` means no canvas with that
identifier exists. -/
structure CanvasHost where
  canvases : Nat → Option Canvas

/-- Modelled from the spec: `putPixel(canvas, x, y, color)` (tools.hpp,
line 254) — sets the single addressed pixel of the addressed canvas;
color is a `uint32_t`, so storage reduces modulo `2 ^ 32`. -/
def putPixel (s : CanvasHost) (canvas : Nat) (x y : Nat) (color : Nat) : CanvasHost :=
  ⟨fun id =>
    if id = canvas then
      (s.canvases id).map fun cv =>
        ⟨cv.width, cv.height, fun a b => if a = x ∧ b = y then color % 2 ^ 32 else cv.pix a b⟩
    else s.canvases id⟩

/-- Modelled from the spec: `cleanCanvas(canvasId, color)` (tools.hpp,
line 273) — clears the whole addressed canvas to a solid color. -/
def cleanCanvas (s : CanvasHost) (canvasId : Nat) (color : Nat) : CanvasHost :=
  ⟨fun id =>
    if id = canvasId then
      (s.canvases id).map fun cv => ⟨cv.width, cv.height, fun _ _ => color % 2 ^ 32⟩
    else s.canvases id⟩

/-- Modelled from the spec: the host-side state of one slider widget.
`createSlider` stores `startValue` as the initial `value`. -/
structure SliderW where
  minValue : Int
  maxValue : Int
  value : Int
deriving DecidableEq, Repr

/-- Modelled from the spec: the host-side store of slider widgets,
addressed by their opaque identifiers. -/
structure SliderHost where
  sliders : Nat → Option SliderW

/-- Modelled from the spec: the user moves the slider with identifier
`id` to `v`.  The host updates the slider's current value and emits a
`SliderMovedEventData` carrying the slider's identifier and its new
value (tools.hpp, line 225: "Emits event with it's id when value
changed"); on an unknown identifier nothing happens and no event is
emitted. -/
def moveSlider (s : SliderHost) (id : Nat) (v : Int) :
    SliderHost × Option SliderMovedEventData :=
  match s.sliders id with
  | some sl =>
    (⟨fun i => if i = id then some ⟨sl.minValue, sl.maxValue, v⟩ else s.sliders i⟩,
      some ⟨id, v⟩)
  | none => (s, none)

/-- Modelled from the spec: the host's per-Tool event stream.
`generated` is the list of events the host has generated for this Tool,
in generation order; `delivered` is the list of events already passed to
the Tool's `apply`, in delivery order. -/
structure DispatchState where
  generated : List Event
  delivered : List Event

/-- Modelled from the spec: the host's per-Tool dispatch steps.  `gen`
appends a newly generated event; `deliver` passes the next undelivered
event — exactly one per `apply` call (no batching), always the oldest
undelivered one (no reordering). -/
inductive DispatchStep : DispatchState → DispatchState → Prop
  | gen (s : DispatchState) (e : Event) :
      DispatchStep s ⟨s.generated ++ [e], s.delivered⟩
  | deliver (s : DispatchState) (e : Event) :
      s.generated[s.delivered.length]? = some e →
      DispatchStep s ⟨s.generated, s.delivered ++ [e]⟩

/-- The dispatch states the host can reach from the empty stream. -/
def DispatchReachable (s : DispatchState) : Prop :=
  Relation.ReflTransGen DispatchStep ⟨[], []⟩ s

/-! ## Helper lemmas -/

/-- Common behaviour of the four widget factories over a well-formed GUI
state: a nonzero result is fresh and the widget is prepended; a zero
result leaves the state untouched. -/
theorem createWidget_spec (ok : Bool) (w : Widget) (s : GuiState) (hs : s.WellFormed) :
    ((createWidget ok w s).1 ≠ 0 →
        (createWidget ok w s).1 ∉ s.liveIds ∧
        (createWidget ok w s).2.liveIds = (createWidget ok w s).1 :: s.liveIds ∧
        (createWidget ok w s).2.WellFormed)
  ∧ ((createWidget ok w s).1 = 0 → (createWidget ok w s).2 = s) := by
  obtain ⟨h1, h2⟩ := hs
  cases ok with
  | false => simp [createWidget]
  | true =>
    simp only [createWidget, if_true]
    refine ⟨fun _ => ⟨?_, ?_, ?_, ?_⟩, fun h0 => absurd h0.symm (Nat.ne_of_lt h1)⟩
    · intro hmem
      exact absurd (h2 _ hmem).2 (lt_irrefl _)
    · simp [GuiState.liveIds]
    · exact Nat.succ_pos _
    · intro id hid
      have hid' : id = s.nextId ∨ ∃ wdg, (id, wdg) ∈ s.widgets := by
        simpa [GuiState.liveIds] using hid
      rcases hid' with h | ⟨wdg, h⟩
      · exact ⟨h ▸ h1, h ▸ Nat.lt_succ_self _⟩
      · have hmem : id ∈ s.liveIds := by
          simp only [GuiState.liveIds, List.mem_map]
          exact ⟨(id, wdg), h, rfl⟩
        exact ⟨(h2 _ hmem).1, Nat.lt_succ_of_lt (h2 _ hmem).2⟩

/-- From the terminal `Destroyed` state no further host action is
permitted. -/
theorem runTool_destroyed {tr : List HostAction} {s : ToolState}
    (h : runTool .Destroyed tr = some s) : tr = [] := by
  cases tr with
  | nil => rfl
  | cons a tr => cases a <;> simp [runTool, toolStep] at h

/-- From the `Active` state no execution ever performs the widget-build
step again. -/
theorem runTool_active_no_build : ∀ {tr : List HostAction} {s : ToolState},
    runTool .Active tr = some s → countBuild tr = 0 := by
  intro tr
  induction tr with
  | nil => intro s _; rfl
  | cons a tr ih =>
    intro s h
    cases a with
    | applyEvent =>
      have h' : runTool .Active tr = some s := by simpa [runTool, toolStep] using h
      simpa [countBuild] using ih h'
    | destroy =>
      have h' : runTool .Destroyed tr = some s := by simpa [runTool, toolStep] using h
      rw [runTool_destroyed h']
      rfl
    | register => simp [runTool, toolStep] at h
    | build => simp [runTool, toolStep] at h

/-- From the `Registered` state every execution performs the widget-build
step at most once and never an apply call before it. -/
theorem runTool_registered {tr : List HostAction} {s : ToolState}
    (h : runTool .Registered tr = some s) :
    countBuild tr ≤ 1 ∧ buildOncePreApply tr = true := by
  cases tr with
  | nil => exact ⟨Nat.zero_le 1, rfl⟩
  | cons a tr =>
    cases a with
    | build =>
      have h' : runTool .Active tr = some s := by simpa [runTool, toolStep] using h
      have hz := runTool_active_no_build h'
      exact ⟨by simp [countBuild, hz], by simp [buildOncePreApply, hz]⟩
    | register => simp [runTool, toolStep] at h
    | applyEvent => simp [runTool, toolStep] at h
    | destroy => simp [runTool, toolStep] at h

/-- One dispatch step preserves "delivered is an initial segment of
generated". -/
theorem dispatchStep_preserves {s t : DispatchState} (h : DispatchStep s t)
    (hs : ∃ rest, s.generated = s.delivered ++ rest) :
    ∃ rest, t.generated = t.delivered ++ rest := by
  obtain ⟨rest, hrest⟩ := hs
  cases h with
  | gen e => exact ⟨rest ++ [e], by simp [hrest]⟩
  | deliver e he =>
    rw [hrest] at he
    rw [List.getElem?_append_right (le_refl _)] at he
    cases rest with
    | nil => simp at he
    | cons r rest' =>
      have hre : r = e := by simpa using he
      exact ⟨rest', by simp [hrest, hre]⟩

/-! ## Claim theorems -/

/-- C1: for every pixel surface and every coordinate pair `(x, y)` with
`x < width` and `y < height`, and every 32-bit color `c`, calling
`setPixel(x, y, c)` and then `getPixel(x, y)` on the same surface
returns `c`. -/
theorem setPixel_then_getPixel (i : Image) (x y c : Nat)
    (hx : x < i.getW) (hy : y < i.getH) (hc : c < 2 ^ 32) :
    (i.setPixel x y c).getPixel x y = c := by
  show (if x = x ∧ y = y then c % 2 ^ 32 else i.pix x y) = c
  rw [if_pos ⟨rfl, rfl⟩]
  exact Nat.mod_eq_of_lt hc

/-- Witness for C1: a concrete 2-by-2 surface, coordinates `(0, 1)`,
color 7. -/
theorem setPixel_then_getPixel_witness :
    ((⟨2, 2, fun _ _ => 0⟩ : Image).setPixel 0 1 7).getPixel 0 1 = 7 :=
  setPixel_then_getPixel ⟨2, 2, fun _ _ => 0⟩ 0 1 7 (by decide) (by decide) (by decide)

/-- C9: the event-tag discriminant values are the fixed integers 0
through 8, with `NoEvent = 0`, `MouseMoved = 1`, `MousePressed = 2`,
`MouseReleased = 3`, `ButtonClicked = 4`, `SliderMoved = 5`,
`CanvasMPressed = 6`, `CanvasMReleased = 7`, `CanvasMMoved = 8`; every
event's tag is one of exactly these nine values. -/
theorem eventType_discriminants :
    (EventType.val .NoEvent = 0 ∧ EventType.val .MouseMoved = 1 ∧
     EventType.val .MousePressed = 2 ∧ EventType.val .MouseReleased = 3 ∧
     EventType.val .ButtonClicked = 4 ∧ EventType.val .SliderMoved = 5 ∧
     EventType.val .CanvasMPressed = 6 ∧ EventType.val .CanvasMReleased = 7 ∧
     EventType.val .CanvasMMoved = 8)
  ∧ ∀ e : Event, e.type ∈ [EventType.NoEvent, .MouseMoved, .MousePressed,
      .MouseReleased, .ButtonClicked, .SliderMoved, .CanvasMPressed,
      .CanvasMReleased, .CanvasMMoved] := by
  refine ⟨by decide, fun e => ?_⟩
  rcases e with ⟨t, p⟩
  cases t <;> simp

/-- C10: the `Image` destructor is `protected`, so destroying a surface
through the public `Image` interface is impossible; every other declared
member of `Image` is public. -/
theorem image_destructor_protected :
    imageMemberAccess .destructor = Access.protectedAccess
  ∧ ∀ m : ImageMember, imageMemberAccess m = Access.publicAccess ↔ m ≠ .destructor := by
  decide

/-- C5: for every event, at most one union member — the one selected by
the tag — is meaningful, and every tag other than `NoEvent` selects
exactly one; an event constructed with tag `T` and payload `p` yields
`p` when the member for `T` is read; a successful (meaningful) read
implies the tag selects that member, so reading any other member is
undefined (`none`); and an event with the `NoEvent` tag exposes no
meaningful payload at all. -/
theorem event_tagged_union :
    (∀ t v v', variantOfTag t = some v → variantOfTag t = some v' → v = v')
  ∧ (∀ t : EventType, t ≠ .NoEvent → ∃ v, variantOfTag t = some v)
  ∧ (∀ d, (mkMouseMoved d).readMotion = some d)
  ∧ (∀ d, (mkMousePressed d).readMbedata = some d)
  ∧ (∀ d, (mkMouseReleased d).readMbedata = some d)
  ∧ (∀ d, (mkButtonClicked d).readBcedata = some d)
  ∧ (∀ d, (mkSliderMoved d).readSmedata = some d)
  ∧ (∀ d, (mkCanvasMPressed d).readCedata = some d)
  ∧ (∀ d, (mkCanvasMReleased d).readCedata = some d)
  ∧ (∀ d, (mkCanvasMMoved d).readCedata = some d)
  ∧ (∀ e : Event, (e.readMotion).isSome = true → variantOfTag e.type = some .motion)
  ∧ (∀ e : Event, (e.readMbedata).isSome = true → variantOfTag e.type = some .mbedata)
  ∧ (∀ e : Event, (e.readBcedata).isSome = true → variantOfTag e.type = some .bcedata)
  ∧ (∀ e : Event, (e.readSmedata).isSome = true → variantOfTag e.type = some .smedata)
  ∧ (∀ e : Event, (e.readCedata).isSome = true → variantOfTag e.type = some .cedata)
  ∧ (∀ e : Event, e.type = .NoEvent →
      e.readMotion = none ∧ e.readMbedata = none ∧ e.readBcedata = none ∧
      e.readSmedata = none ∧ e.readCedata = none) := by
  refine ⟨?_, ?_, fun d => rfl, fun d => rfl, fun d => rfl, fun d => rfl, fun d => rfl,
    fun d => rfl, fun d => rfl, fun d => rfl, ?_, ?_, ?_, ?_, ?_, ?_⟩
  · intro t v v' h1 h2
    rw [h1] at h2
    exact Option.some.inj h2
  · intro t ht
    cases t <;> first | exact absurd rfl ht | exact ⟨_, rfl⟩
  · rintro ⟨t, p⟩ h
    cases t <;> cases p <;> simp_all [Event.readMotion, variantOfTag]
  · rintro ⟨t, p⟩ h
    cases t <;> cases p <;> simp_all [Event.readMbedata, variantOfTag]
  · rintro ⟨t, p⟩ h
    cases t <;> cases p <;> simp_all [Event.readBcedata, variantOfTag]
  · rintro ⟨t, p⟩ h
    cases t <;> cases p <;> simp_all [Event.readSmedata, variantOfTag]
  · rintro ⟨t, p⟩ h
    cases t <;> cases p <;> simp_all [Event.readCedata, variantOfTag]
  · rintro ⟨t, p⟩ ht
    have : t = .NoEvent := ht
    subst this
    cases p <;> simp [Event.readMotion, Event.readMbedata, Event.readBcedata,
      Event.readSmedata, Event.readCedata]

/-- Witness for C5: the tag `MouseMoved` is not `NoEvent` and selects a
meaningful union member. -/
theorem event_tagged_union_witness :
    ∃ v, variantOfTag EventType.MouseMoved = some v :=
  event_tagged_union.2.1 EventType.MouseMoved (by decide)

/-- C2: each of the four widget-creation calls, run on a well-formed GUI
state, either succeeds with a nonzero identifier that is unique among
the currently-live widgets (the new widget is recorded under it and the
state stays well-formed), or fails returning 0 with the set of live
widgets unchanged. -/
theorem create_widget_unique_or_noop (ok : Bool) (x y w h : Nat) (text : String)
    (mn mx sv : Int) (s : GuiState) (hs : s.WellFormed) :
    (((createButton ok x y w h text s).1 ≠ 0 →
        (createButton ok x y w h text s).1 ∉ s.liveIds ∧
        (createButton ok x y w h text s).2.liveIds
          = (createButton ok x y w h text s).1 :: s.liveIds ∧
        (createButton ok x y w h text s).2.WellFormed)
      ∧ ((createButton ok x y w h text s).1 = 0 →
          (createButton ok x y w h text s).2 = s))
  ∧ (((createLabel ok x y w h text s).1 ≠ 0 →
        (createLabel ok x y w h text s).1 ∉ s.liveIds ∧
        (createLabel ok x y w h text s).2.liveIds
          = (createLabel ok x y w h text s).1 :: s.liveIds ∧
        (createLabel ok x y w h text s).2.WellFormed)
      ∧ ((createLabel ok x y w h text s).1 = 0 →
          (createLabel ok x y w h text s).2 = s))
  ∧ (((createSlider ok x y w h mn mx sv s).1 ≠ 0 →
        (createSlider ok x y w h mn mx sv s).1 ∉ s.liveIds ∧
        (createSlider ok x y w h mn mx sv s).2.liveIds
          = (createSlider ok x y w h mn mx sv s).1 :: s.liveIds ∧
        (createSlider ok x y w h mn mx sv s).2.WellFormed)
      ∧ ((createSlider ok x y w h mn mx sv s).1 = 0 →
          (createSlider ok x y w h mn mx sv s).2 = s))
  ∧ (((createCanvas ok x y w h s).1 ≠ 0 →
        (createCanvas ok x y w h s).1 ∉ s.liveIds ∧
        (createCanvas ok x y w h s).2.liveIds
          = (createCanvas ok x y w h s).1 :: s.liveIds ∧
        (createCanvas ok x y w h s).2.WellFormed)
      ∧ ((createCanvas ok x y w h s).1 = 0 →
          (createCanvas ok x y w h s).2 = s)) :=
  ⟨createWidget_spec ok _ s hs, createWidget_spec ok _ s hs,
   createWidget_spec ok _ s hs, createWidget_spec ok _ s hs⟩

/-- Witness for C2: the very first `createButton` on the fresh GUI state
succeeds, its identifier is fresh and the state stays well-formed. -/
theorem create_widget_unique_or_noop_witness :
    (createButton true 0 0 50 20 "Go" GuiState.start).1 ∉ GuiState.start.liveIds ∧
    (createButton true 0 0 50 20 "Go" GuiState.start).2.liveIds
      = (createButton true 0 0 50 20 "Go" GuiState.start).1 :: GuiState.start.liveIds ∧
    (createButton true 0 0 50 20 "Go" GuiState.start).2.WellFormed :=
  (create_widget_unique_or_noop true 0 0 50 20 "Go" 0 10 5 GuiState.start
    ⟨Nat.one_pos, by simp [GuiState.start, GuiState.liveIds]⟩).1.1 (by decide)

/-- C3: in every reachable host-driven execution (every action sequence
the lifecycle state machine accepts from `Unregistered`), the
widget-build step occurs at most once, and no apply call occurs before
the first widget-build step — so a state where `apply` has been called
but `buildSetupWidget` has not is unreachable. -/
theorem tool_build_once_before_apply (tr : List HostAction) (s : ToolState)
    (h : runTool .Unregistered tr = some s) :
    countBuild tr ≤ 1 ∧ buildOncePreApply tr = true := by
  cases tr with
  | nil => exact ⟨Nat.zero_le 1, rfl⟩
  | cons a tr =>
    cases a with
    | register =>
      have h' : runTool .Registered tr = some s := by simpa [runTool, toolStep] using h
      have hr := runTool_registered h'
      exact ⟨by simpa [countBuild] using hr.1, by simpa [buildOncePreApply] using hr.2⟩
    | build => simp [runTool, toolStep] at h
    | applyEvent => simp [runTool, toolStep] at h
    | destroy => simp [runTool, toolStep] at h

/-- Witness for C3: the canonical lifecycle register, build, apply,
destroy is accepted and satisfies both conclusions. -/
theorem tool_build_once_before_apply_witness :
    countBuild [HostAction.register, .build, .applyEvent, .destroy] ≤ 1 ∧
    buildOncePreApply [HostAction.register, .build, .applyEvent, .destroy] = true :=
  tool_build_once_before_apply [HostAction.register, .build, .applyEvent, .destroy]
    ToolState.Destroyed rfl

/-- C4: every apply invocation the host makes carries a non-null event
pointer (it can always be dereferenced), while the image pointer may be
null on a valid invocation — so a Tool that dereferences the image
without checking is wrong: image non-nullness does not follow from
validity. -/
theorem apply_pointer_contract :
    (∀ c : ApplyCall, c.valid = true → ∃ e, c.event = some e)
  ∧ (∃ c : ApplyCall, c.valid = true ∧ c.image = none)
  ∧ ¬ (∀ c : ApplyCall, c.valid = true → c.image.isSome = true) := by
  refine ⟨?_, ⟨⟨none, some mkNoEvent⟩, rfl, rfl⟩, ?_⟩
  · intro c hc
    cases hce : c.event with
    | none =>
      rw [ApplyCall.valid, hce] at hc
      exact absurd hc (by simp)
    | some e => exact ⟨e, rfl⟩
  · intro hall
    have := hall ⟨none, some mkNoEvent⟩ rfl
    simp at this

/-- Witness for C4: a concrete valid invocation, whose event pointer
dereferences. -/
theorem apply_pointer_contract_witness :
    ∃ e, (ApplyCall.mk (some ⟨1, 1, fun _ _ => 0⟩) (some mkNoEvent)).event = some e :=
  apply_pointer_contract.1 ⟨some ⟨1, 1, fun _ _ => 0⟩, some mkNoEvent⟩ rfl

/-- C6: on a canvas `c` that exists in the host store (as obtained from a
successful `createCanvas`), `cleanCanvas(c, 0xFFFFFFFF)` followed by
`putPixel(c, 0, 0, 0x00000000)` leaves pixel `(0, 0)` equal to
`0x00000000` and every other pixel equal to `0xFFFFFFFF`; moreover
`putPixel` never modifies a pixel other than the addressed one, nor any
other canvas. -/
theorem cleanCanvas_putPixel_frame (s : CanvasHost) (c : Nat) (cv : Canvas)
    (hc : s.canvases c = some cv) :
    (((putPixel (cleanCanvas s c 0xFFFFFFFF) c 0 0 0x00000000).canvases c).map
        (fun cv' => cv'.pix 0 0) = some 0x00000000
      ∧ ∀ a b : Nat, ¬(a = 0 ∧ b = 0) →
          ((putPixel (cleanCanvas s c 0xFFFFFFFF) c 0 0 0x00000000).canvases c).map
            (fun cv' => cv'.pix a b) = some 0xFFFFFFFF)
  ∧ (∀ (t : CanvasHost) (id x y col a b : Nat), ¬(a = x ∧ b = y) →
        ((putPixel t id x y col).canvases id).map (fun u => u.pix a b)
          = (t.canvases id).map fun u => u.pix a b)
  ∧ (∀ (t : CanvasHost) (id x y col j : Nat), j ≠ id →
        (putPixel t id x y col).canvases j = t.canvases j) := by
  refine ⟨⟨?_, ?_⟩, ?_, ?_⟩
  · simp [putPixel, cleanCanvas, hc]
  · intro a b hab
    simp [putPixel, cleanCanvas, hc, hab]
  · intro t id x y col a b hab
    cases ht : t.canvases id with
    | none => simp [putPixel, ht]
    | some u => simp [putPixel, ht, hab]
  · intro t id x y col j hj
    simp [putPixel, hj]

/-- Witness for C6: a host with one 8-by-8 canvas under identifier 3;
after clearing to white and putting a black pixel at the origin, the
origin reads black. -/
theorem cleanCanvas_putPixel_frame_witness :
    ((putPixel (cleanCanvas ⟨fun id => if id = 3 then some ⟨8, 8, fun _ _ => 0⟩ else none⟩
        3 0xFFFFFFFF) 3 0 0 0x00000000).canvases 3).map
      (fun cv' => cv'.pix 0 0) = some 0x00000000 :=
  (cleanCanvas_putPixel_frame ⟨fun id => if id = 3 then some ⟨8, 8, fun _ _ => 0⟩ else none⟩
    3 ⟨8, 8, fun _ _ => 0⟩ rfl).1.1

/-- C7: when a slider that the host created with some start value is
moved to `v`, the emitted `SliderMovedEventData` carries the new value
`v` (and reading the `smedata` member of the corresponding event yields
exactly that payload); the slider's stored value becomes `v`, and
whenever `v` differs from the start value the reported value differs
from the start value. -/
theorem sliderMoved_reports_event_value (s : SliderHost) (id : Nat)
    (mn mx sv v : Int) (hs : s.sliders id = some ⟨mn, mx, sv⟩) :
    ∃ d : SliderMovedEventData,
      (moveSlider s id v).2 = some d
      ∧ d.value = v
      ∧ (mkSliderMoved d).readSmedata = some d
      ∧ (moveSlider s id v).1.sliders id = some ⟨mn, mx, v⟩
      ∧ (v ≠ sv → d.value ≠ sv) := by
  refine ⟨⟨id, v⟩, ?_, rfl, rfl, ?_, fun hne => hne⟩
  · simp [moveSlider, hs]
  · simp [moveSlider, hs]

/-- Witness for C7: a slider created with min 0, max 10, start value 5
under identifier 2, then moved to 8: the event reports 8, not 5. -/
theorem sliderMoved_reports_event_value_witness :
    ∃ d : SliderMovedEventData,
      (moveSlider ⟨fun i => if i = 2 then some ⟨0, 10, 5⟩ else none⟩ 2 8).2 = some d
      ∧ d.value = 8
      ∧ (mkSliderMoved d).readSmedata = some d
      ∧ (moveSlider ⟨fun i => if i = 2 then some ⟨0, 10, 5⟩ else none⟩ 2 8).1.sliders 2
          = some ⟨0, 10, 8⟩
      ∧ ((8 : Int) ≠ 5 → d.value ≠ 5) :=
  sliderMoved_reports_event_value ⟨fun i => if i = 2 then some ⟨0, 10, 5⟩ else none⟩
    2 0 10 5 8 rfl

/-- C8: in every dispatch state the host can reach for one Tool, the
delivered events form an initial segment of the generated events — the
host delivers events in exactly their generation order (FIFO), one per
apply call, never reordering. -/
theorem dispatch_fifo (s : DispatchState) (h : DispatchReachable s) :
    ∃ rest, s.generated = s.delivered ++ rest := by
  induction h with
  | refl => exact ⟨[], rfl⟩
  | tail _ hstep ih => exact dispatchStep_preserves hstep ih

/-- Witness for C8: the host generates one event and delivers it; the
reached state satisfies the initial-segment conclusion. -/
theorem dispatch_fifo_witness :
    ∃ rest, (DispatchState.mk [mkNoEvent] [mkNoEvent]).generated
      = (DispatchState.mk [mkNoEvent] [mkNoEvent]).delivered ++ rest :=
  dispatch_fifo ⟨[mkNoEvent], [mkNoEvent]⟩
    (Relation.ReflTransGen.tail
      (Relation.ReflTransGen.single (DispatchStep.gen ⟨[], []⟩ mkNoEvent))
      (DispatchStep.deliver ⟨[mkNoEvent], []⟩ mkNoEvent rfl))

end Booba
